import Mathlib

/-!
Shallow embedding of the particle / easing engines of the
`website-effects` repository (holiday-cursor variants and snowfall
variants), together with proofs of the specification's testable
properties.

Numeric fields are modelled over `ℚ` where the source code is pure
arithmetic, and over `ℝ` where the source uses trigonometric functions
(`Math.sin`, `Math.cos`).  Calls to `Math.random()` are modelled as
explicit stream parameters `r : ℕ → _`, constrained to `[0, 1)` where a
claim needs it.
-/

namespace WebsiteEffects

/-! ### FollowerRig: easing step of `animate` (holiday-cursor.js lines 454-477) -/

/-- One-axis easing update, `pos += (target - pos) * ease`, as written in
`animate` for `dotX`, `dotY`, `circleX`, `circleY`. -/
def followerStep (pos target ease : ℚ) : ℚ :=
  pos + (target - pos) * ease

/-- State carried by the holiday-cursor `animate` loop (mouse target and the
two follower points). -/
structure FollowerState where
  mouseX : ℚ
  mouseY : ℚ
  dotX : ℚ
  dotY : ℚ
  circleX : ℚ
  circleY : ℚ
  deriving DecidableEq

/-- The follower part of `animate` in holiday-cursor.js: the dot eases with
constant 0.18 and the circle with 0.08 toward the mouse position. -/
def animateFollowers (c : FollowerState) : FollowerState :=
  { c with
    dotX := followerStep c.dotX c.mouseX (18/100)
    dotY := followerStep c.dotY c.mouseY (18/100)
    circleX := followerStep c.circleX c.mouseX (8/100)
    circleY := followerStep c.circleY c.mouseY (8/100) }

/-! ### Particles of the cursor variants (holiday-cursor.js) -/

/-- Particle record pushed by `createSparkle` and `createClickRipple`
(fields `x, y, vx, vy, size, color, life, decay`).  Generic in the number
type: instantiated at `ℚ` for executable checks and at `ℝ` where the
spawn uses trigonometry. -/
structure Particle (α : Type) where
  x : α
  y : α
  vx : α
  vy : α
  size : α
  color : String
  life : α
  decay : α
  deriving DecidableEq

/-- Christmas palette of `createSparkle` in holiday-cursor.js. -/
def holidayColors : List String :=
  ["#C41E3A", "#165B33", "#FFD700", "#FFFFFF", "#146B3A", "#BB2528"]

/-- `createSparkle(x, y)` from holiday-cursor.js (lines 324-347): ambient
trail particle with jittered position, small random velocity, random size,
palette color, `life = 1.0` and `decay ∈ [0.01, 0.025)`.  The stream `r`
supplies the `Math.random()` draws in call order. -/
def createSparkle {α : Type} [LinearOrderedField α] [FloorSemiring α]
    (x y : α) (r : ℕ → α) : Particle α :=
  { x := x + (r 0 - 1/2) * 20
    y := y + (r 1 - 1/2) * 20
    vx := (r 2 - 1/2) * (3/2)
    vy := (r 3 - 1/2) * (3/2) - 1/2
    size := r 4 * (5/2) + 1
    color := holidayColors.getD ⌊r 5 * 6⌋₊ "#FFFFFF"
    life := 1
    decay := r 6 * (3/200) + 1/100 }

/-- Per-particle motion/lifetime update of `updateParticles`
(holiday-cursor.js lines 416-419): `x += vx; y += vy; vy += 0.08;
life -= decay`. -/
def updateParticle {α : Type} [LinearOrderedField α] (p : Particle α) : Particle α :=
  { p with
    x := p.x + p.vx
    y := p.y + p.vy
    vy := p.vy + 2/25
    life := p.life - p.decay }

/-- `updateParticles` of holiday-cursor.js (lines 410-452): every particle
is moved and aged, then particles with `life <= 0` are spliced out and the
survivors are drawn.  The backwards loop with `splice` preserves the
relative order of survivors, so it is a map followed by a filter. -/
def updateParticles {α : Type} [LinearOrderedField α]
    (l : List (Particle α)) : List (Particle α) :=
  (l.map updateParticle).filter (fun p => 0 < p.life)

/-- The list of particles drawn by one `updateParticles` pass: exactly the
particles remaining after the dead ones were spliced out. -/
def renderedParticles {α : Type} [LinearOrderedField α]
    (l : List (Particle α)) : List (Particle α) :=
  updateParticles l

/-- One burst particle of `createClickRipple` (holiday-cursor.js lines
349-368): index `i` of 8, launch angle `2·π·i/8`, random speed
`r·2 + 1.5`, random size, alternating red/green palette, `life = 1.0`,
`decay = 0.025`. -/
noncomputable def clickBurstParticle (x y : ℝ) (i : ℕ) (rSpeed rSize : ℝ) :
    Particle ℝ :=
  let angle : ℝ := Real.pi * 2 * i / 8
  let speed : ℝ := rSpeed * 2 + 3/2
  { x := x
    y := y
    vx := Real.cos angle * speed
    vy := Real.sin angle * speed
    size := rSize * 3 + 2
    color := if i % 2 = 0 then "#C41E3A" else "#165B33"
    life := 1
    decay := 1/40 }

/-- `createClickRipple(x, y)` from holiday-cursor.js: pushes 8 burst
particles at equal angular increments.  `r i` supplies the two
`Math.random()` draws (speed, size) of iteration `i`. -/
noncomputable def createClickRipple (x y : ℝ) (r : ℕ → ℝ × ℝ) :
    List (Particle ℝ) :=
  (List.range 8).map (fun i => clickBurstParticle x y i (r i).1 (r i).2)

/-! ### AdaptivePopulationPolicy (snowfall variant, src/unnamed/part_001
second component, lines 310-324 and 428-435) -/

/-- Adaptive snowflake count: `floor(area / divisor)` capped at
`maxSnowflakes`, with `divisor = 15000, max = 50` in the compact (mobile)
device class and `divisor = 10000, max = 100` otherwise, exactly as in
`initializeSnowflakes` and `handleResize`. -/
def targetCount (w h : ℕ) (isMobile : Bool) : ℕ :=
  let screenArea := w * h
  let divisor := if isMobile then 15000 else 10000
  let snowflakeCount := screenArea / divisor
  let maxSnowflakes := if isMobile then 50 else 100
  min snowflakeCount maxSnowflakes

/-- The device-class flag as derived in the source: `isMobile =
window.innerWidth < 768`. -/
def adaptiveSnowflakeCount (w h : ℕ) : ℕ :=
  targetCount w h (decide (w < 768))

/-! ### Snowfall particles (src/unnamed/part_001, first component:
`SnowfallEffect` with explicit canvas dimensions) -/

/-- Snowflake record returned by `createSnowflake` (lines 79-97): position,
size, fall and drift speeds, opacity, swing oscillation state, blur and
parallax depth.  Note: no `life` / `decay` fields exist on snowflakes. -/
structure Snowflake where
  x : ℝ
  y : ℝ
  size : ℝ
  speedY : ℝ
  speedX : ℝ
  opacity : ℝ
  swing : ℝ
  swingSpeed : ℝ
  angle : ℝ
  blur : ℝ
  depth : ℝ

/-- `createSnowflake(isNew)` (lines 79-97): random size in `[1,5)`, random
`x` across the canvas, `y = -10` for fresh top-edge spawns else random on
screen, random speeds/opacity/swing, blur 1 for large flakes, random
depth.  `r` supplies the `Math.random()` draws in call order. -/
noncomputable def createSnowflake (w h : ℝ) (isNew : Bool) (r : ℕ → ℝ) :
    Snowflake :=
  let size := r 0 * 4 + 1
  { x := r 1 * w
    y := if isNew then -10 else r 2 * h
    size := size
    speedY := r 3 * 1 + 1/2
    speedX := r 4 * (1/2) - 1/4
    opacity := r 5 * (6/10) + 4/10
    swing := r 6 * 2
    swingSpeed := r 7 * (1/100) + 5/1000
    angle := r 8 * (Real.pi * 2)
    blur := if size > 3 then 1 else 0
    depth := r 9 }

/-- Swing angle after one `updateSnowflake` step: `angle += swingSpeed`. -/
def snowNextAngle (s : Snowflake) : ℝ :=
  s.angle + s.swingSpeed

/-- Vertical position after the motion part of `updateSnowflake`:
`y += speedY * depth`. -/
def snowNextY (s : Snowflake) : ℝ :=
  s.y + s.speedY * s.depth

/-- Horizontal position after the motion part of `updateSnowflake`:
drift, swing oscillation, and the wall-clock wind term
`sin(t * 0.0001) * 0.2 * depth` (the source computes the wind from
`Date.now()`; `t` is that timestamp). -/
noncomputable def snowNextX (t : ℝ) (s : Snowflake) : ℝ :=
  s.x + s.speedX + Real.sin (snowNextAngle s) * s.swing * (1/10) +
    Real.sin (t * (1/10000)) * (2/10) * s.depth

/-- `updateSnowflake` (lines 133-157): advance swing angle and position,
then reset to the top (`y = -10`, fresh random `x`) when the flake passed
the bottom edge `y > height + 10`, then wrap horizontally at the margins
`[-10, width + 10]`.  `rx` is the `Math.random()` draw used by the reset
branch.  The snowflake is always returned — never dropped. -/
noncomputable def updateSnowflake (w h t rx : ℝ) (s : Snowflake) : Snowflake :=
  let a := snowNextAngle s
  let y0 := snowNextY s
  let x0 := snowNextX t s
  let y1 := if y0 > h + 10 then -10 else y0
  let x1 := if y0 > h + 10 then rx * w else x0
  let x2 := if x1 > w + 10 then -10 else if x1 < -10 then w + 10 else x1
  { s with angle := a, y := y1, x := x2 }

/-- One frame of `animate` (lines 159-171): every snowflake is updated in
place (`forEach`) and then drawn; no snowflake is ever added or removed
by the loop.  `rand i` is the random draw available to the `i`-th flake's
potential reset. -/
noncomputable def animateSnow (w h t : ℝ) (rand : ℕ → ℝ)
    (l : List Snowflake) : List Snowflake :=
  l.enum.map (fun p => updateSnowflake w h t (rand p.1) p.2)

/-- Parameters of one `animate` frame: canvas width, height, wall-clock
time, and the random stream for resets. -/
def SnowFrame : Type := ℝ × ℝ × ℝ × (ℕ → ℝ)

/-- A sequence of `animate` frames applied in order. -/
noncomputable def animateSnowTrace (frames : List SnowFrame)
    (l : List Snowflake) : List Snowflake :=
  frames.foldl (fun acc f => animateSnow f.1 f.2.1 f.2.2.1 f.2.2.2 acc) l

/-- `handleResize` reconciliation (part_001 second component, lines
428-445): after recomputing the target count, append freshly spawned
top-edge snowflakes (`createSnowflake(true)`) while the population is too
small, or truncate it (`snowflakes.length = targetCount`) when too large.
`rand i` supplies the random draws of the `i`-th appended flake. -/
noncomputable def handleResize (w h : ℝ) (rand : ℕ → ℕ → ℝ)
    (l : List Snowflake) (target : ℕ) : List Snowflake :=
  if l.length < target then
    l ++ (List.range (target - l.length)).map (fun i => createSnowflake w h true (rand i))
  else if target < l.length then
    l.take target
  else l

/-! ### Event machine of the holiday-cursor input handlers
(holiday-cursor.js lines 215-270) -/

/-- Input events fed to the holiday-cursor handlers.  A `move` carries the
`Date.now()` timestamp in milliseconds and the random stream for a
potential sparkle spawn; a `click` carries the random stream for the
burst. -/
inductive CursorEvent where
  | move (t : ℤ) (x y : ℝ) (r : ℕ → ℝ)
  | down
  | up
  | click (x y : ℝ) (r : ℕ → ℝ × ℝ)

/-- Mutable state of the holiday-cursor handlers that the particle system
depends on: last pointer sample, `isClicking`, `lastParticleTime`, and the
particle population. -/
structure CursorState where
  mouseX : ℝ
  mouseY : ℝ
  isClicking : Bool
  lastParticleTime : ℤ
  particles : List (Particle ℝ)

/-- One event dispatch: `onMouseMove` spawns a sparkle only when
`now - lastParticleTime > 80 && !isClicking` (and then records `now`);
`onMouseDown` / `onMouseUp` toggle `isClicking`; `onClick` always pushes
the 8-particle burst of `createClickRipple`. -/
noncomputable def cursorStep (s : CursorState) : CursorEvent → CursorState
  | .move t x y r =>
      if 80 < t - s.lastParticleTime ∧ s.isClicking = false then
        { s with mouseX := x, mouseY := y,
                 particles := s.particles ++ [createSparkle x y r],
                 lastParticleTime := t }
      else { s with mouseX := x, mouseY := y }
  | .down => { s with isClicking := true }
  | .up => { s with isClicking := false }
  | .click x y r => { s with particles := s.particles ++ createClickRipple x y r }

/-- A sequence of input events dispatched in order. -/
noncomputable def cursorRun (s : CursorState) (es : List CursorEvent) :
    CursorState :=
  es.foldl cursorStep s

end WebsiteEffects

namespace WebsiteEffects

/-! ### Theorems for claims C1 and C3 -/

/-- Claim C1: one follower tick multiplies the remaining gap to a fixed
target by exactly `(1 - s)` on each axis — both for a general smoothing
`s ∈ (0,1)` and for the concrete eases 0.18 / 0.08 used by
holiday-cursor's `animate`; a follower with `s = 0.2` starting at `(0,0)`
with target `(100,0)` is at `(20,0)` after one tick and `(36,0)` after
two. -/
theorem follower_tick_contraction :
    (∀ pos target s : ℚ, 0 < s → s < 1 →
      followerStep pos target s - target = (1 - s) * (pos - target)) ∧
    (∀ c : FollowerState,
      (animateFollowers c).dotX - c.mouseX = (1 - 18/100) * (c.dotX - c.mouseX) ∧
      (animateFollowers c).dotY - c.mouseY = (1 - 18/100) * (c.dotY - c.mouseY) ∧
      (animateFollowers c).circleX - c.mouseX = (1 - 8/100) * (c.circleX - c.mouseX) ∧
      (animateFollowers c).circleY - c.mouseY = (1 - 8/100) * (c.circleY - c.mouseY)) ∧
    (followerStep 0 100 (1/5) = 20 ∧ followerStep 0 0 (1/5) = 0 ∧
      followerStep (followerStep 0 100 (1/5)) 100 (1/5) = 36 ∧
      followerStep (followerStep 0 0 (1/5)) 0 (1/5) = 0) := by
  refine ⟨?_, ?_, by norm_num [followerStep]⟩
  · intro pos target s _ _
    simp only [followerStep]
    ring
  · intro c
    simp only [animateFollowers, followerStep]
    refine ⟨by ring, by ring, by ring, by ring⟩

/-- Witness for C1 at `pos = 0`, `target = 100`, `s = 1/5`. -/
theorem follower_tick_contraction_witness :
    followerStep 0 100 (1/5) - 100 = (1 - (1/5 : ℚ)) * (0 - 100) :=
  follower_tick_contraction.1 0 100 (1/5) (by norm_num) (by norm_num)

/-! ### Helper lemmas about `updateParticles` -/

theorem mem_updateParticles {α : Type} [LinearOrderedField α]
    {l : List (Particle α)} {p : Particle α} :
    p ∈ updateParticles l ↔ (∃ q ∈ l, updateParticle q = p) ∧ 0 < p.life := by
  simp [updateParticles, List.mem_filter, List.mem_map, and_comm]

theorem updateParticles_eq_nil {α : Type} [LinearOrderedField α]
    {l : List (Particle α)} (h : ∀ p ∈ l, p.life - p.decay ≤ 0) :
    updateParticles l = [] := by
  rw [updateParticles, List.filter_eq_nil_iff]
  rintro p hp
  rcases List.mem_map.mp hp with ⟨q, hq, rfl⟩
  simpa [updateParticle] using h q hq

theorem updateParticles_life_bound {c d : ℚ} {l : List (Particle ℚ)}
    (h : ∀ p ∈ l, p.life ≤ c ∧ p.decay = d) :
    ∀ p ∈ updateParticles l, p.life ≤ c - d ∧ p.decay = d := by
  intro p hp
  rcases mem_updateParticles.mp hp with ⟨⟨q, hq, rfl⟩, _⟩
  rcases h q hq with ⟨h1, h2⟩
  refine ⟨?_, by simpa [updateParticle] using h2⟩
  simp only [updateParticle]
  rw [h2]
  linarith

theorem updateParticles_iterate_bound (j : ℕ) {d : ℚ} {l : List (Particle ℚ)}
    (h : ∀ p ∈ l, p.life ≤ 1 ∧ p.decay = d) :
    ∀ p ∈ updateParticles^[j] l, p.life ≤ 1 - j * d ∧ p.decay = d := by
  induction j with
  | zero => simpa using h
  | succ n ih =>
      rw [Function.iterate_succ_apply']
      intro p hp
      have := updateParticles_life_bound ih p hp
      refine ⟨?_, this.2⟩
      have h1 := this.1
      push_cast
      linarith

/-- Claim C4: a particle whose life is nonpositive after the per-tick
decrement is removed before the render pass and never drawn, and a
population whose particles all start with `life = 1` and share a fixed
decay `d > 0` is empty after `⌈1/d⌉` ticks (with no further spawns). -/
theorem dead_particles_removed_and_population_extinct :
    (∀ (l : List (Particle ℚ)) (p : Particle ℚ),
      p ∈ renderedParticles l → 0 < p.life) ∧
    (∀ (l : List (Particle ℚ)) (d : ℚ), 0 < d →
      (∀ p ∈ l, p.life = 1 ∧ p.decay = d) →
      updateParticles^[⌈(1/d : ℚ)⌉₊] l = []) := by
  constructor
  · intro l p hp
    exact (mem_updateParticles.mp hp).2
  · intro l d hd h
    set K : ℕ := ⌈(1/d : ℚ)⌉₊ with hK
    have hKpos : 0 < K := Nat.ceil_pos.mpr (by positivity)
    have hKd : (1 : ℚ) ≤ K * d := by
      have := Nat.le_ceil (1/d : ℚ)
      rw [div_le_iff₀ hd] at this
      simpa [hK] using this
    rw [← Nat.succ_pred_eq_of_pos hKpos, Function.iterate_succ_apply']
    apply updateParticles_eq_nil
    intro p hp
    have hb := updateParticles_iterate_bound (K - 1)
      (fun q hq => ⟨le_of_eq (h q hq).1, (h q hq).2⟩) p hp
    have hcast : ((K - 1 : ℕ) : ℚ) = (K : ℚ) - 1 := by
      push_cast [Nat.cast_sub hKpos]
      ring
    rw [hb.2]
    have h1 := hb.1
    rw [hcast] at h1
    nlinarith

/-- Witness for C4: a single particle with `life = 1`, `decay = 1/4` is
rendered-alive after one tick when its life is still positive, and a
one-particle population with `decay = 1/4` is gone after `⌈4⌉ = 4`
ticks. -/
theorem dead_particles_removed_and_population_extinct_witness :
    ((0 : ℚ) <
      (updateParticle ({ x := 0, y := 0, vx := 0, vy := 0, size := 1,
                         color := "#FFD700", life := 1,
                         decay := 1/4 } : Particle ℚ)).life) ∧
    updateParticles^[⌈((1 : ℚ) / (1/4))⌉₊]
      [({ x := 0, y := 0, vx := 0, vy := 0, size := 1,
          color := "#FFD700", life := 1, decay := 1/4 } : Particle ℚ)] = [] := by
  constructor
  · exact dead_particles_removed_and_population_extinct.1
      [({ x := 0, y := 0, vx := 0, vy := 0, size := 1,
          color := "#FFD700", life := 1, decay := 1/4 } : Particle ℚ)]
      _ (mem_updateParticles.mpr
          ⟨⟨_, List.mem_singleton_self _, rfl⟩, by norm_num [updateParticle]⟩)
  · exact dead_particles_removed_and_population_extinct.2
      [({ x := 0, y := 0, vx := 0, vy := 0, size := 1,
          color := "#FFD700", life := 1, decay := 1/4 } : Particle ℚ)]
      (1/4) (by norm_num) (by norm_num)

/-- Claim C5: one snowfall frame updates every snowflake in place and
never changes the population size, and therefore any sequence of frames
(with no reconcile in between) leaves the population size unchanged. -/
theorem snowfall_population_size_invariant :
    (∀ (w h t : ℝ) (rand : ℕ → ℝ) (l : List Snowflake),
      (animateSnow w h t rand l).length = l.length) ∧
    (∀ (frames : List SnowFrame) (l : List Snowflake),
      (animateSnowTrace frames l).length = l.length) := by
  have h1 : ∀ (w h t : ℝ) (rand : ℕ → ℝ) (l : List Snowflake),
      (animateSnow w h t rand l).length = l.length := by
    intro w h t rand l
    simp [animateSnow]
  refine ⟨h1, ?_⟩
  intro frames
  induction frames with
  | nil => intro l; rfl
  | cons f fs ih =>
      intro l
      simpa [animateSnowTrace, List.foldl_cons, h1] using
        (ih (animateSnow f.1 f.2.1 f.2.2.1 f.2.2.2 l)).trans
          (h1 f.1 f.2.1 f.2.2.1 f.2.2.2 l)

/-- Claim C3: `targetCount` is `min (floor (w·h / divisor)) maxCount` with
`divisor = 10000, maxCount = 100` for regular devices and
`divisor = 15000, maxCount = 50` for compact devices, and
`targetCount 1200 800 false = 96`. -/
theorem targetCount_formula :
    (∀ w h : ℕ, targetCount w h false = min (w * h / 10000) 100) ∧
    (∀ w h : ℕ, targetCount w h true = min (w * h / 15000) 50) ∧
    targetCount 1200 800 false = 96 := by
  refine ⟨fun w h => rfl, fun w h => rfl, by decide⟩

/-- Claim C9: with the device class fixed, `targetCount` is monotonically
non-decreasing in the viewport area `w·h`, and always bounded by the
class's `maxCount` (50 compact, 100 regular). -/
theorem targetCount_monotone_and_bounded :
    (∀ (w1 h1 w2 h2 : ℕ) (flag : Bool), w1 * h1 ≤ w2 * h2 →
      targetCount w1 h1 flag ≤ targetCount w2 h2 flag) ∧
    (∀ (w h : ℕ) (flag : Bool),
      targetCount w h flag ≤ if flag then 50 else 100) := by
  constructor
  · intro w1 h1 w2 h2 flag hle
    exact min_le_min (Nat.div_le_div_right hle) le_rfl
  · intro w h flag
    exact min_le_right _ _

/-- Witness for C9 at areas `100·100 ≤ 200·200` on the regular device
class. -/
theorem targetCount_monotone_and_bounded_witness :
    targetCount 100 100 false ≤ targetCount 200 200 false :=
  targetCount_monotone_and_bounded.1 100 100 200 200 false (by norm_num)

/-- Claim C8: one `handleResize` reconciliation brings the population size
exactly to `target`: it appends exactly `target - size` fresh top-edge
snowflakes when `target` exceeds the current size, and truncates to
`target` entries when `target` is below it. -/
theorem handleResize_reconciles_population :
    ∀ (w h : ℝ) (rand : ℕ → ℕ → ℝ) (l : List Snowflake) (target : ℕ),
      (handleResize w h rand l target).length = target ∧
      (l.length < target →
        handleResize w h rand l target =
          l ++ (List.range (target - l.length)).map
            (fun i => createSnowflake w h true (rand i))) ∧
      (target < l.length →
        handleResize w h rand l target = l.take target) := by
  intro w h rand l target
  refine ⟨?_, ?_, ?_⟩
  · unfold handleResize
    split_ifs with h1 h2
    · simp only [List.length_append, List.length_map, List.length_range]
      omega
    · simp only [List.length_take]
      omega
    · omega
  · intro hlt
    simp [handleResize, hlt]
  · intro hgt
    have hnot : ¬ l.length < target := by omega
    simp [handleResize, hnot, hgt]

/-- Witness for C8: growing an empty population to one flake and shrinking
a one-flake population to zero. -/
theorem handleResize_reconciles_population_witness :
    ((handleResize 100 50 (fun _ _ => 0) [] 1).length = 1 ∧
      handleResize 100 50 (fun _ _ => 0) [] 1 =
        [] ++ (List.range (1 - List.length ([] : List Snowflake))).map
          (fun i => createSnowflake 100 50 true ((fun _ _ => (0 : ℝ)) i))) ∧
    handleResize 100 50 (fun _ _ => 0)
      [({ x := 0, y := 0, size := 1, speedY := 1, speedX := 0, opacity := 1,
          swing := 0, swingSpeed := 0, angle := 0, blur := 0,
          depth := 1 } : Snowflake)] 0 =
      List.take 0
        [({ x := 0, y := 0, size := 1, speedY := 1, speedX := 0, opacity := 1,
            swing := 0, swingSpeed := 0, angle := 0, blur := 0,
            depth := 1 } : Snowflake)] := by
  refine ⟨⟨?_, ?_⟩, ?_⟩
  · exact (handleResize_reconciles_population 100 50 (fun _ _ => 0) [] 1).1
  · exact (handleResize_reconciles_population 100 50 (fun _ _ => 0) [] 1).2.1
      (by simp)
  · exact (handleResize_reconciles_population 100 50 (fun _ _ => 0)
      [({ x := 0, y := 0, size := 1, speedY := 1, speedX := 0, opacity := 1,
          swing := 0, swingSpeed := 0, angle := 0, blur := 0,
          depth := 1 } : Snowflake)] 0).2.2 (by simp)

/-- Claim C2: `createClickRipple` at `(100, 100)` adds exactly 8 particles;
the `i`-th has velocity exactly along the angle `2·π·i/8` with magnitude
in `[1.5, 3.5]`, given that the random speed draws lie in `[0, 1)`. -/
theorem click_burst_angles_and_speeds :
    ∀ (r : ℕ → ℝ × ℝ), (∀ i, 0 ≤ (r i).1 ∧ (r i).1 < 1) →
      (createClickRipple 100 100 r).length = 8 ∧
      (∀ i (hi : i < (createClickRipple 100 100 r).length),
        ∃ s : ℝ, (3/2 ≤ s ∧ s ≤ 7/2) ∧
          ((createClickRipple 100 100 r).get ⟨i, hi⟩).vx =
            Real.cos (Real.pi * 2 * i / 8) * s ∧
          ((createClickRipple 100 100 r).get ⟨i, hi⟩).vy =
            Real.sin (Real.pi * 2 * i / 8) * s ∧
          Real.sqrt (((createClickRipple 100 100 r).get ⟨i, hi⟩).vx ^ 2 +
            ((createClickRipple 100 100 r).get ⟨i, hi⟩).vy ^ 2) = s) := by
  intro r hr
  have hlen : (createClickRipple 100 100 r).length = 8 := by
    simp [createClickRipple]
  refine ⟨hlen, ?_⟩
  intro i hi
  have hget : (createClickRipple 100 100 r).get ⟨i, hi⟩ =
      clickBurstParticle 100 100 i (r i).1 (r i).2 := by
    simp [createClickRipple]
  refine ⟨(r i).1 * 2 + 3/2, ⟨?_, ?_⟩, ?_, ?_, ?_⟩
  · have := (hr i).1
    linarith
  · have := (hr i).2
    linarith
  · rw [hget]
    rfl
  · rw [hget]
    rfl
  · rw [hget]
    have hs : (0 : ℝ) ≤ (r i).1 * 2 + 3/2 := by
      have := (hr i).1
      linarith
    have hsq : (clickBurstParticle 100 100 i (r i).1 (r i).2).vx ^ 2 +
        (clickBurstParticle 100 100 i (r i).1 (r i).2).vy ^ 2 =
        ((r i).1 * 2 + 3/2) ^ 2 := by
      show (Real.cos (Real.pi * 2 * i / 8) * ((r i).1 * 2 + 3/2)) ^ 2 +
        (Real.sin (Real.pi * 2 * i / 8) * ((r i).1 * 2 + 3/2)) ^ 2 =
        ((r i).1 * 2 + 3/2) ^ 2
      have hpyth := Real.cos_sq_add_sin_sq (Real.pi * 2 * i / 8)
      nlinarith [hpyth]
    rw [hsq]
    exact Real.sqrt_sq hs

/-- Witness for C2 with every speed draw equal to `1/2`. -/
theorem click_burst_angles_and_speeds_witness :
    (createClickRipple 100 100 (fun _ => (1/2, 1/2))).length = 8 ∧
    (∀ i (hi : i < (createClickRipple 100 100 (fun _ => (1/2, 1/2))).length),
      ∃ s : ℝ, (3/2 ≤ s ∧ s ≤ 7/2) ∧
        ((createClickRipple 100 100 (fun _ => (1/2, 1/2))).get ⟨i, hi⟩).vx =
          Real.cos (Real.pi * 2 * i / 8) * s ∧
        ((createClickRipple 100 100 (fun _ => (1/2, 1/2))).get ⟨i, hi⟩).vy =
          Real.sin (Real.pi * 2 * i / 8) * s ∧
        Real.sqrt
          (((createClickRipple 100 100 (fun _ => (1/2, 1/2))).get ⟨i, hi⟩).vx ^ 2 +
            ((createClickRipple 100 100 (fun _ => (1/2, 1/2))).get ⟨i, hi⟩).vy ^ 2)
          = s) :=
  click_burst_angles_and_speeds (fun _ => (1/2, 1/2))
    (fun _ => ⟨by norm_num, by norm_num⟩)

/-- Counterexample to claim C6: an ambient sparkle particle of the
holiday-cursor variant (life `1/400`, decay `7/400 ∈ [0.01, 0.025)`, the
state reached from a fresh sparkle after 57 ticks) whose life drops to
`-6/400 ≤ 0` on this tick is spliced out of the population — the result
is the empty list, not a retained particle reset to `y = -10`. -/
theorem ambient_sparkle_removed_not_reset :
    (updateParticle ({ x := 50, y := 50, vx := 1, vy := 1, size := 2,
                       color := "#C41E3A", life := 1/400,
                       decay := 7/400 } : Particle ℚ)).life ≤ 0 ∧
    updateParticles
      [({ x := 50, y := 50, vx := 1, vy := 1, size := 2,
          color := "#C41E3A", life := 1/400,
          decay := 7/400 } : Particle ℚ)] = [] := by
  constructor
  · norm_num [updateParticle]
  · simp only [updateParticles, List.map_cons, List.map_nil,
      List.filter_cons, List.filter_nil]
    norm_num [updateParticle]

/-- Amended claim C6: in the snowfall variant (where particles carry no
life field) a snowflake is reset to a fresh top-edge spawn —
`y = -margin` with a newly random `x` — exactly when its updated vertical
position passes the bottom edge (`y > height + margin`), and it stays in
the population; holiday-cursor ambient sparkles are instead removed when
their life expires. -/
theorem snowflake_bottom_reset (w h t rx : ℝ) (s : Snowflake)
    (hy : snowNextY s > h + 10) (h0 : 0 ≤ rx) (h1 : rx ≤ 1) (hw : 0 ≤ w) :
    (updateSnowflake w h t rx s).y = -10 ∧
    (updateSnowflake w h t rx s).x = rx * w := by
  have hxw : rx * w ≤ w := by nlinarith
  have hx0 : 0 ≤ rx * w := mul_nonneg h0 hw
  have hnotR : ¬ rx * w > w + 10 := by linarith
  have hnotL : ¬ rx * w < -10 := by linarith
  constructor
  · simp [updateSnowflake, hy]
  · simp [updateSnowflake, hy, hnotR, hnotL]

/-- Witness for the amended C6: a snowflake at `y = 100` falling past a
canvas of height 50 is reset to `y = -10` with `x = (1/2)·100`. -/
theorem snowflake_bottom_reset_witness :
    (updateSnowflake 100 50 0 (1/2)
      ({ x := 0, y := 100, size := 1, speedY := 1, speedX := 0, opacity := 1,
         swing := 0, swingSpeed := 0, angle := 0, blur := 0,
         depth := 1 } : Snowflake)).y = -10 ∧
    (updateSnowflake 100 50 0 (1/2)
      ({ x := 0, y := 100, size := 1, speedY := 1, speedX := 0, opacity := 1,
         swing := 0, swingSpeed := 0, angle := 0, blur := 0,
         depth := 1 } : Snowflake)).x = (1/2 : ℝ) * 100 :=
  snowflake_bottom_reset 100 50 0 (1/2) _
    (by norm_num [snowNextY]) (by norm_num) (by norm_num) (by norm_num)

/-- Counterexample to claim C7: a burst particle of the holiday-cursor
variant spawned at `x = 99` near the right edge of a 100-wide viewport
with `vx = 3` (angle 0, speed 3), `life = 1`, `decay = 0.025`, crosses
the claimed bound `width + 10 = 110` on its fourth tick (`x = 111`) yet
is still in the population — `updateParticles` has no horizontal-bounds
removal at all. -/
theorem burst_particle_not_removed_at_bounds :
    (updateParticles (updateParticles (updateParticles (updateParticles
      [({ x := 99, y := 50, vx := 3, vy := 0, size := 3,
          color := "#C41E3A", life := 1,
          decay := 1/40 } : Particle ℚ)])))).map (fun p => p.x) = [111] ∧
    ¬ ((111 : ℚ) ≤ 100 + 10) := by
  constructor
  · simp only [updateParticles, List.map_cons, List.map_nil,
      List.filter_cons, List.filter_nil]
    norm_num [updateParticle]
  · norm_num

/-- Amended claim C7: an ambient snowflake whose updated `x` leaves
`[-margin, width + margin]` (margin 10) is wrapped to the opposite edge
(when it was not simultaneously reset at the bottom); a burst particle
crossing those bounds is neither wrapped nor removed — it persists until
its life expires. -/
theorem snow_wrap_and_burst_persist :
    (∀ (w h t rx : ℝ) (s : Snowflake), 0 ≤ w → ¬ snowNextY s > h + 10 →
      (snowNextX t s > w + 10 → (updateSnowflake w h t rx s).x = -10) ∧
      (snowNextX t s < -10 → (updateSnowflake w h t rx s).x = w + 10)) ∧
    (∀ (p : Particle ℚ) (l1 l2 : List (Particle ℚ)),
      0 < p.life - p.decay →
      updateParticle p ∈ updateParticles (l1 ++ p :: l2)) := by
  constructor
  · intro w h t rx s hw hy
    constructor
    · intro hx
      simp [updateSnowflake, hy, hx]
    · intro hx
      have hnotR : ¬ snowNextX t s > w + 10 := by linarith
      simp [updateSnowflake, hy, hnotR, hx]
  · intro p l1 l2 hp
    refine mem_updateParticles.mpr ⟨⟨p, ?_, rfl⟩, ?_⟩
    · simp
    · simpa [updateParticle] using hp

/-- Witness for the amended C7: a snowflake at `x = 200` beyond a 100-wide
canvas wraps to `-10`, and a rational burst-shaped particle with
remaining life survives a tick. -/
theorem snow_wrap_and_burst_persist_witness :
    (updateSnowflake 100 1000 0 0
      ({ x := 200, y := 0, size := 1, speedY := 1, speedX := 0, opacity := 1,
         swing := 0, swingSpeed := 0, angle := 0, blur := 0,
         depth := 1 } : Snowflake)).x = -10 ∧
    updateParticle ({ x := 0, y := 0, vx := 0, vy := 0, size := 1,
                      color := "#C41E3A", life := 1,
                      decay := 1/40 } : Particle ℚ) ∈
      updateParticles
        [({ x := 0, y := 0, vx := 0, vy := 0, size := 1,
            color := "#C41E3A", life := 1, decay := 1/40 } : Particle ℚ)] := by
  constructor
  · exact ((snow_wrap_and_burst_persist.1 100 1000 0 0
      ({ x := 200, y := 0, size := 1, speedY := 1, speedX := 0, opacity := 1,
         swing := 0, swingSpeed := 0, angle := 0, blur := 0,
         depth := 1 } : Snowflake)
      (by norm_num) (by norm_num [snowNextY])).1
      (by simp [snowNextX, snowNextAngle]; norm_num))
  · exact snow_wrap_and_burst_persist.2
      ({ x := 0, y := 0, vx := 0, vy := 0, size := 1,
         color := "#C41E3A", life := 1, decay := 1/40 } : Particle ℚ)
      [] [] (by norm_num)

/-! ### Helper lemmas for the cursor event machine -/

theorem cursorStep_keeps_clicking {s : CursorState} {e : CursorEvent}
    (hne : e ≠ CursorEvent.up) (hs : s.isClicking = true) :
    (cursorStep s e).isClicking = true := by
  cases e with
  | move t x y r =>
      simp only [cursorStep]
      split
      · exact hs
      · exact hs
  | down => rfl
  | up => exact absurd rfl hne
  | click x y r => exact hs

theorem cursorRun_keeps_clicking {s : CursorState} {es : List CursorEvent}
    (hs : s.isClicking = true) (hes : ∀ e ∈ es, e ≠ CursorEvent.up) :
    (cursorRun s es).isClicking = true := by
  induction es generalizing s with
  | nil => exact hs
  | cons e es ih =>
      exact ih (cursorStep_keeps_clicking (hes e (by simp)) hs)
        (fun f hf => hes f (by simp [hf]))

/-- Claim C10: a pointer move never spawns an ambient sparkle while the
mouse button is held (`isClicking`), nor less than 80 ms after the
previous sparkle; `isClicking` stays set from a mousedown through any
up-free event window; and a click burst is spawned unconditionally. -/
theorem sparkle_gating :
    (∀ (s : CursorState) (t : ℤ) (x y : ℝ) (r : ℕ → ℝ),
      s.isClicking = true →
      (cursorStep s (CursorEvent.move t x y r)).particles = s.particles) ∧
    (∀ (s : CursorState) (t : ℤ) (x y : ℝ) (r : ℕ → ℝ),
      t - s.lastParticleTime < 80 →
      (cursorStep s (CursorEvent.move t x y r)).particles = s.particles) ∧
    (∀ (s : CursorState) (es : List CursorEvent),
      (∀ e ∈ es, e ≠ CursorEvent.up) →
      (cursorRun (cursorStep s CursorEvent.down) es).isClicking = true) ∧
    (∀ (s : CursorState) (x y : ℝ) (r : ℕ → ℝ × ℝ),
      (cursorStep s (CursorEvent.click x y r)).particles.length =
        s.particles.length + 8) := by
  refine ⟨?_, ?_, ?_, ?_⟩
  · intro s t x y r hs
    simp [cursorStep, hs]
  · intro s t x y r ht
    have hcond : ¬ (80 < t - s.lastParticleTime ∧ s.isClicking = false) :=
      fun hc => absurd hc.1 (by omega)
    simp [cursorStep, hcond]
  · intro s es hes
    exact cursorRun_keeps_clicking rfl hes
  · intro s x y r
    simp [cursorStep, createClickRipple]

/-- Witness for C10: with the button held no sparkle is spawned, a move
0 ms after the previous sparkle spawns nothing, `isClicking` survives an
up-free window after a mousedown, and a click adds exactly 8 burst
particles. -/
theorem sparkle_gating_witness :
    (cursorStep ({ mouseX := 0, mouseY := 0, isClicking := true,
                   lastParticleTime := 0, particles := [] } : CursorState)
      (CursorEvent.move 1000 5 5 (fun _ => 0))).particles = [] ∧
    (cursorStep ({ mouseX := 0, mouseY := 0, isClicking := false,
                   lastParticleTime := 0, particles := [] } : CursorState)
      (CursorEvent.move 0 5 5 (fun _ => 0))).particles = [] ∧
    (cursorRun
      (cursorStep ({ mouseX := 0, mouseY := 0, isClicking := false,
                     lastParticleTime := 0, particles := [] } : CursorState)
        CursorEvent.down)
      [CursorEvent.move 1000 5 5 (fun _ => 0)]).isClicking = true ∧
    (cursorStep ({ mouseX := 0, mouseY := 0, isClicking := false,
                   lastParticleTime := 0, particles := [] } : CursorState)
      (CursorEvent.click 5 5 (fun _ => (0, 0)))).particles.length = 0 + 8 := by
  refine ⟨?_, ?_, ?_, ?_⟩
  · exact sparkle_gating.1 _ 1000 5 5 (fun _ => 0) rfl
  · exact sparkle_gating.2.1 _ 0 5 5 (fun _ => 0) (by decide)
  · exact sparkle_gating.2.2.1 _ [CursorEvent.move 1000 5 5 (fun _ => 0)]
      (by intro e he; simp at he; simp [he])
  · have := sparkle_gating.2.2.2
      ({ mouseX := 0, mouseY := 0, isClicking := false,
         lastParticleTime := 0, particles := [] } : CursorState)
      5 5 (fun _ => (0, 0))
    simpa using this

end WebsiteEffects
